import Mathlib

/-!
Shallow embedding of gutimer (src/gutimer.go): a terminal stopwatch,
timer and countdown tool. Durations and timestamps are modelled as
mathematical integers carrying nanosecond counts, matching the int64
nanosecond representation of Go durations; Go integer division and
remainder truncate toward zero and are modelled with Int.tdiv and
Int.tmod. The timing loop of runTimer is modelled as a step function
over its local state; the unbuffered channels are modelled by sequential
delivery of the emitted events, stopping at the first event on which the
loop returns.
-/

namespace Gutimer

/-- Operating mode, from the Mode enumeration of the source. -/
inductive Mode
| NONE
| TIMER
| COUNTDOWN
| STOPWATCH
deriving DecidableEq, Repr

/-- Nanoseconds in an hour (Go time.Hour). -/
def nsPerHour : Int := 3600000000000

/-- Nanoseconds in a minute (Go time.Minute). -/
def nsPerMinute : Int := 60000000000

/-- Nanoseconds in a second (Go time.Second). -/
def nsPerSecond : Int := 1000000000

/-- Nanoseconds in a millisecond (Go time.Millisecond). -/
def nsPerMillisecond : Int := 1000000

/-- Go Duration.Truncate: rounds toward zero to a multiple of m
(returns d unchanged when m is not positive). -/
def goTruncate (d m : Int) : Int :=
  if m ≤ 0 then d else d - Int.tmod d m

/-- Decimal digits of a natural number, zero padded on the left to at
least two digits. -/
def pad2 (n : Nat) : String :=
  if n < 10 then "0" ++ toString n else toString n

/-- Go fmt verb %2.2d: minimum two digits, zero padded, with a sign for
negative values. -/
def goFmt2 (n : Int) : String :=
  if n < 0 then "-" ++ pad2 n.natAbs else pad2 n.toNat

/-- Embedding of printDuration: formats a nanosecond count as
bracketed hours, minutes, seconds and centiseconds. -/
def printDuration (duration : Int) : String :=
  let hours := goTruncate duration nsPerHour
  let duration := duration - hours
  let hours := Int.tdiv hours nsPerHour
  let minutes := goTruncate duration nsPerMinute
  let duration := duration - minutes
  let minutes := Int.tdiv minutes nsPerMinute
  let seconds := goTruncate duration nsPerSecond
  let duration := duration - seconds
  let seconds := Int.tdiv seconds nsPerSecond
  let milliseconds := Int.tdiv (goTruncate duration nsPerMillisecond) (nsPerMillisecond * 10)
  "[" ++ goFmt2 hours ++ ":" ++ goFmt2 minutes ++ ":" ++ goFmt2 seconds ++ "."
    ++ goFmt2 milliseconds ++ "]"

/-- Embedding of printElapsed: the string written for one frame. The
leading carriage return returns the cursor to line start. Modes outside
the switch write nothing. -/
def printElapsed (mode : Mode) (total duration : Int) : String :=
  match mode with
  | .STOPWATCH => "\x0dElapsed time: " ++ printDuration duration
  | .TIMER => "\x0dElapsed time: " ++ printDuration duration
  | .COUNTDOWN => "\x0dTime Remaining: " ++ printDuration (total - duration)
  | .NONE => ""

/-- Local state of the runTimer loop: the start instant, the pause flag
and the loop variable d holding the elapsed value of the last processed
tick. -/
structure LoopState where
  start : Int
  pause : Bool
  d : Int
deriving DecidableEq, Repr

/-- One event received at the select point of runTimer: a ticker
delivery carrying its timestamp, an input byte from channel c, or a
return status from channel e. -/
inductive Event
| tick (t : Int)
| byte (b : Nat)
| term (ret : Int)
deriving DecidableEq, Repr

/-- One observable output action of the timing loop. A frame records
the arguments of a printElapsed call; its written string is
printElapsed applied to them. -/
inductive Out
| bell
| frame (mode : Mode) (total : Int) (d : Int)
| newline
deriving DecidableEq, Repr

/-- Result of processing one event: either the loop continues with a
new state, or runTimer returns a status. Outputs are listed in the
order they are written. -/
inductive StepResult
| cont (s : LoopState) (out : List Out)
| done (ret : Int) (out : List Out)
deriving DecidableEq, Repr

/-- The duration actually used by runTimer: for STOPWATCH the source
overwrites it with the maximum int64 value. -/
def runTimerDuration (mode : Mode) (duration : Int) : Int :=
  if mode = .STOPWATCH then 2 ^ 63 - 1 else duration

/-- Embedding of one iteration of the select loop of runTimer. now is
the value time.Now() would return while handling the event; the ticker
case uses the timestamp carried by the tick itself. Quit bytes are 113
and 81 (q and Q), the pause toggle byte is 32 (space). On break LOOP
the trailing newline printed after the loop is included in the
outputs. -/
def step (mode : Mode) (duration : Int) (now : Int) (s : LoopState) (ev : Event) :
    StepResult :=
  match ev with
  | .tick t =>
    if s.pause then .cont s []
    else
      let d := t - s.start
      if d > duration then
        .done 0 [.bell, .frame mode duration duration, .newline]
      else
        .cont { s with d := d } [.frame mode duration d]
  | .byte b =>
    if b = 81 ∨ b = 113 then
      .done 0 [.newline]
    else if mode = .STOPWATCH ∧ b = 32 then
      if ¬ s.pause then .cont { s with pause := true } []
      else .cont { s with pause := false, start := now - s.d } []
    else
      .cont s []
  | .term ret => .done ret []

/-- Result of delivering a sequence of events to the loop: still
running, or returned with a status, the accumulated outputs and the
events never delivered because the loop had already returned. -/
inductive RunResult
| running (s : LoopState) (out : List Out)
| done (ret : Int) (out : List Out) (undelivered : List (Int × Event))
deriving DecidableEq, Repr

/-- Delivers events to the loop one at a time, each paired with the
time.Now() value at its processing, stopping at the first event on
which runTimer returns: the unbuffered channels deliver in emission
order and nothing is delivered after the loop has returned. -/
def runEvents (mode : Mode) (duration : Int) :
    LoopState → List (Int × Event) → RunResult
  | s, [] => .running s []
  | s, (now, ev) :: rest =>
    match step mode duration now s ev with
    | .cont s₂ out =>
      match runEvents mode duration s₂ rest with
      | .running s₃ out₂ => .running s₃ (out ++ out₂)
      | .done ret out₂ undelivered => .done ret (out ++ out₂) undelivered
    | .done ret out => .done ret out rest

/-- One emission of the readStdin goroutine, in program order: a write
to standard output, a send on the status channel e, or a send on the
byte channel c. -/
inductive ROut
| print (s : String)
| sendE (ret : Int)
| sendC (b : Nat)
deriving DecidableEq, Repr

/-- Lowercase hexadecimal digit character for a value below 16. -/
def lowerHexDigit (n : Nat) : Char :=
  if n < 10 then Char.ofNat (48 + n) else Char.ofNat (87 + n)

/-- Go unicode.IsPrint restricted to byte values: the printable ASCII
range 32 to 126, and in the Latin-1 supplement everything from 161 to
255 except 173, the soft hyphen; bytes 127 to 160 are controls or the
no break space, which is not the ASCII space, so none of those are
printable. -/
def goIsPrintByte (b : Nat) : Bool :=
  (32 ≤ b && b ≤ 126) || (161 ≤ b && b ≤ 255 && b != 173)

/-- Go fmt %q rendering of a byte, as echoed in verbose mode: a single
quoted character literal safely escaped with Go syntax. The single
quote and the backslash are escaped with a backslash; printable bytes
appear as themselves; bytes 7 to 13 use the named escapes a, b, t, n,
v, f, r; the remaining controls below 32 and byte 127 use a two digit
lowercase hex escape after x; the remaining non printable high bytes
use a four digit lowercase hex escape after u. -/
def goQuoteByte (b : Nat) : String :=
  let quote := Char.ofNat 39
  let backslash := Char.ofNat 92
  if b = 39 ∨ b = 92 then String.mk [quote, backslash, Char.ofNat b, quote]
  else if goIsPrintByte b then String.mk [quote, Char.ofNat b, quote]
  else if b = 7 then String.mk [quote, backslash, Char.ofNat 97, quote]
  else if b = 8 then String.mk [quote, backslash, Char.ofNat 98, quote]
  else if b = 12 then String.mk [quote, backslash, Char.ofNat 102, quote]
  else if b = 10 then String.mk [quote, backslash, Char.ofNat 110, quote]
  else if b = 13 then String.mk [quote, backslash, Char.ofNat 114, quote]
  else if b = 9 then String.mk [quote, backslash, Char.ofNat 116, quote]
  else if b = 11 then String.mk [quote, backslash, Char.ofNat 118, quote]
  else if b < 32 ∨ b = 127 then
    String.mk [quote, backslash, Char.ofNat 120,
      lowerHexDigit (b / 16), lowerHexDigit (b % 16), quote]
  else
    String.mk [quote, backslash, Char.ofNat 117, Char.ofNat 48, Char.ofNat 48,
      lowerHexDigit (b / 16 % 16), lowerHexDigit (b % 16), quote]

/-- Embedding of one iteration of the readStdin loop. b is the content
of the one byte buffer after the read; when the read fails, errText
carries the rendered error and b keeps its former, stale content. The
emissions follow the source order: error message and status 1 on a
failed read, the verbose echo, status 0 on the end of transmission
byte 4, then the byte itself on channel c. -/
def readIter (verbose : Bool) (errText : Option String) (b : Nat) : List ROut :=
  (match errText with
   | some msg => [.print ("Error reading stdin: " ++ msg ++ "\n"), .sendE 1]
   | none => [])
  ++ (if verbose then [.print ("read " ++ goQuoteByte b ++ " from stdin\n")] else [])
  ++ (if b = 4 then [.sendE 0] else [])
  ++ [.sendC b]

/-- Channel sends of a reader emission list, as the loop events they
deliver, in order. -/
def channelEvents : List ROut → List Event
  | [] => []
  | .print _ :: rest => channelEvents rest
  | .sendE r :: rest => .term r :: channelEvents rest
  | .sendC b :: rest => .byte b :: channelEvents rest

/-- Standard output writes of a reader emission list, in order. -/
def readerWrites : List ROut → List String
  | [] => []
  | .print s :: rest => s :: readerWrites rest
  | .sendE _ :: rest => readerWrites rest
  | .sendC _ :: rest => readerWrites rest

/-- Outputs of a step result. -/
def outputsOf : StepResult → List Out
  | .cont _ out => out
  | .done _ out => out

/-- Go %2.2d of a cast natural number is the zero padded rendering. -/
theorem goFmt2_ofNat (k : Nat) : goFmt2 (k : Int) = pad2 k := by
  simp [goFmt2]

/-- printDuration on a cast natural number decomposes into zero padded
hours, minutes, seconds and centiseconds fields. -/
theorem printDuration_cast (n : Nat) :
    printDuration (n : Int) =
      "[" ++ pad2 (n / 3600000000000) ++ ":" ++ pad2 (n / 60000000000 % 60) ++ ":"
        ++ pad2 (n / 1000000000 % 60) ++ "." ++ pad2 (n / 10000000 % 100) ++ "]" := by
  simp only [printDuration, goTruncate, nsPerHour, nsPerMinute, nsPerSecond, nsPerMillisecond]
  rw [if_neg (by decide), if_neg (by decide), if_neg (by decide), if_neg (by decide)]
  rw [show ((n : Int)).tmod 3600000000000 = ((n % 3600000000000 : Nat) : Int) from rfl]
  rw [show (n : Int) - ((n % 3600000000000 : Nat) : Int)
        = ((n - n % 3600000000000 : Nat) : Int) by omega]
  rw [show (n : Int) - ((n - n % 3600000000000 : Nat) : Int)
        = ((n % 3600000000000 : Nat) : Int) by omega]
  rw [show ((n % 3600000000000 : Nat) : Int).tmod 60000000000
        = ((n % 3600000000000 % 60000000000 : Nat) : Int) from rfl]
  rw [show ((n % 3600000000000 : Nat) : Int) - ((n % 3600000000000 % 60000000000 : Nat) : Int)
        = ((n % 3600000000000 - n % 3600000000000 % 60000000000 : Nat) : Int) by omega]
  rw [show ((n % 3600000000000 : Nat) : Int)
          - ((n % 3600000000000 - n % 3600000000000 % 60000000000 : Nat) : Int)
        = ((n % 3600000000000 % 60000000000 : Nat) : Int) by omega]
  rw [show ((n % 3600000000000 % 60000000000 : Nat) : Int).tmod 1000000000
        = ((n % 3600000000000 % 60000000000 % 1000000000 : Nat) : Int) from rfl]
  rw [show ((n % 3600000000000 % 60000000000 : Nat) : Int)
          - ((n % 3600000000000 % 60000000000 % 1000000000 : Nat) : Int)
        = ((n % 3600000000000 % 60000000000
            - n % 3600000000000 % 60000000000 % 1000000000 : Nat) : Int) by omega]
  rw [show ((n % 3600000000000 % 60000000000 : Nat) : Int)
          - ((n % 3600000000000 % 60000000000
              - n % 3600000000000 % 60000000000 % 1000000000 : Nat) : Int)
        = ((n % 3600000000000 % 60000000000 % 1000000000 : Nat) : Int) by omega]
  rw [show ((n % 3600000000000 % 60000000000 % 1000000000 : Nat) : Int).tmod 1000000
        = ((n % 3600000000000 % 60000000000 % 1000000000 % 1000000 : Nat) : Int) from rfl]
  rw [show ((n % 3600000000000 % 60000000000 % 1000000000 : Nat) : Int)
          - ((n % 3600000000000 % 60000000000 % 1000000000 % 1000000 : Nat) : Int)
        = ((n % 3600000000000 % 60000000000 % 1000000000
            - n % 3600000000000 % 60000000000 % 1000000000 % 1000000 : Nat) : Int) by omega]
  rw [show ((1000000 : Int) * 10) = ((10000000 : Nat) : Int) from rfl]
  rw [show Int.tdiv ((n - n % 3600000000000 : Nat) : Int) 3600000000000
        = (((n - n % 3600000000000) / 3600000000000 : Nat) : Int) from rfl]
  rw [show Int.tdiv ((n % 3600000000000 - n % 3600000000000 % 60000000000 : Nat) : Int)
          60000000000
        = (((n % 3600000000000 - n % 3600000000000 % 60000000000) / 60000000000
            : Nat) : Int) from rfl]
  rw [show Int.tdiv ((n % 3600000000000 % 60000000000
            - n % 3600000000000 % 60000000000 % 1000000000 : Nat) : Int) 1000000000
        = (((n % 3600000000000 % 60000000000
            - n % 3600000000000 % 60000000000 % 1000000000) / 1000000000 : Nat) : Int) from rfl]
  rw [show Int.tdiv ((n % 3600000000000 % 60000000000 % 1000000000
            - n % 3600000000000 % 60000000000 % 1000000000 % 1000000 : Nat) : Int)
          ((10000000 : Nat) : Int)
        = (((n % 3600000000000 % 60000000000 % 1000000000
            - n % 3600000000000 % 60000000000 % 1000000000 % 1000000) / 10000000
            : Nat) : Int) from rfl]
  rw [goFmt2_ofNat, goFmt2_ofNat, goFmt2_ofNat, goFmt2_ofNat]
  rw [show (n - n % 3600000000000) / 3600000000000 = n / 3600000000000 by omega]
  rw [show (n % 3600000000000 - n % 3600000000000 % 60000000000) / 60000000000
        = n / 60000000000 % 60 by omega]
  rw [show (n % 3600000000000 % 60000000000 - n % 3600000000000 % 60000000000 % 1000000000)
          / 1000000000 = n / 1000000000 % 60 by omega]
  rw [show (n % 3600000000000 % 60000000000 % 1000000000
          - n % 3600000000000 % 60000000000 % 1000000000 % 1000000) / 10000000
        = n / 10000000 % 100 by omega]

/-- C7: every non negative duration renders as zero padded
hours, minutes, seconds and centiseconds in brackets; minutes, seconds
and centiseconds stay below 60, 60 and 100 so their fields are exactly
two digits; hours may exceed two digits for long durations; a duration
of 3723.45 seconds renders as [01:02:03.45] and 0 as [00:00:00.00]. -/
theorem printDuration_format (d : Int) (h : 0 ≤ d) :
    printDuration d =
      "[" ++ pad2 (d.toNat / 3600000000000) ++ ":" ++ pad2 (d.toNat / 60000000000 % 60) ++ ":"
        ++ pad2 (d.toNat / 1000000000 % 60) ++ "." ++ pad2 (d.toNat / 10000000 % 100) ++ "]"
    ∧ d.toNat / 60000000000 % 60 < 60
    ∧ d.toNat / 1000000000 % 60 < 60
    ∧ d.toNat / 10000000 % 100 < 100
    ∧ (∀ k, k < 100 → (pad2 k).length = 2)
    ∧ printDuration (3723450000000 : Int) = "[01:02:03.45]"
    ∧ printDuration (0 : Int) = "[00:00:00.00]"
    ∧ printDuration (360000000000000 : Int) = "[100:00:00.00]" := by
  refine ⟨?_, by omega, by omega, by omega, by decide, by decide, by decide, by decide⟩
  have e : printDuration d = printDuration ((d.toNat : Nat) : Int) := by
    rw [show ((d.toNat : Nat) : Int) = d by omega]
  rw [e, printDuration_cast]

/-- Witness for C7 at the 3723.45 second example. -/
theorem printDuration_format_witness :
    (0 : Int) ≤ 3723450000000 ∧ printDuration (3723450000000 : Int) = "[01:02:03.45]" :=
  ⟨by decide, (printDuration_format 3723450000000 (by decide)).2.2.2.2.2.1⟩

/-- C2: a read of the end of transmission byte 4 makes the reader emit
the status 0 termination event before the byte event; the loop returns
0 on the termination event, so every later emission, the byte 4 event
included, is never delivered and no further read happens; moreover even
a delivered byte 4 would neither quit nor toggle pause. -/
theorem eot_byte_terminates_status_zero (v : Bool) :
    channelEvents (readIter v none 4) = [Event.term 0, Event.byte 4]
    ∧ (∀ (mode : Mode) (duration : Int) (s : LoopState) (n : Int)
        (rest : List (Int × Event)),
        runEvents mode duration s ((n, Event.term 0) :: rest) = .done 0 [] rest)
    ∧ (∀ (mode : Mode) (duration now : Int) (s : LoopState),
        step mode duration now s (.byte 4) = .cont s []) := by
  refine ⟨by cases v <;> rfl, fun _ _ _ _ _ => rfl, ?_⟩
  intro mode duration now s
  simp [step]

/-- C3: a failed read makes the reader emit the status 1 termination
event before any other channel send; the loop returns 1 on receiving
it, without processing a tick first, and every later emission, the
stale byte of the failed read included, is never delivered. -/
theorem read_error_terminates_status_one (v : Bool) (msg : String) (b : Nat) :
    (∃ tail, channelEvents (readIter v (some msg) b) = Event.term 1 :: tail)
    ∧ (∀ (mode : Mode) (duration : Int) (s : LoopState) (n : Int)
        (rest : List (Int × Event)),
        runEvents mode duration s ((n, Event.term 1) :: rest) = .done 1 [] rest) :=
  ⟨⟨_, rfl⟩, fun _ _ _ _ _ => rfl⟩

/-- C5 counterexample: the claim that the reader never writes to the
terminal output stream fails on a concrete read error, where the
source prints an error message, and on a concrete verbose echo. -/
theorem reader_never_writes_counterexample :
    readerWrites (readIter false (some "EOF") 0) = ["Error reading stdin: EOF\n"]
    ∧ readerWrites (readIter true none 113) = ["read " ++ goQuoteByte 113 ++ " from stdin\n"]
    ∧ readerWrites (readIter false (some "EOF") 0) ≠ [] :=
  ⟨rfl, rfl, by decide⟩

/-- C5 amended: the reader shares no session state and talks to the
loop only through channel events, but it does write to the output
stream: an error message on every failed read and a %q escaped echo of
each byte in verbose mode; with verbose off and no read error it
writes nothing. The closing equations pin the escaping down on sample
bytes: q, code 113, is echoed between plain quotes; the end of
transmission byte 4 as backslash x 0 4; the line feed 10 as backslash
n; the quote 39 and the backslash 92 with a leading backslash; and the
no break space 160 as backslash u 0 0 a 0. -/
theorem reader_prints_only_on_error_or_verbose :
    (∀ b : Nat, readerWrites (readIter false none b) = [])
    ∧ (∀ (b : Nat) (msg : String),
        readerWrites (readIter false (some msg) b)
          = ["Error reading stdin: " ++ msg ++ "\n"])
    ∧ (∀ b : Nat, readerWrites (readIter true none b)
        = ["read " ++ goQuoteByte b ++ " from stdin\n"])
    ∧ goQuoteByte 113 = String.mk [Char.ofNat 39, Char.ofNat 113, Char.ofNat 39]
    ∧ goQuoteByte 4 = String.mk [Char.ofNat 39, Char.ofNat 92, Char.ofNat 120,
        Char.ofNat 48, Char.ofNat 52, Char.ofNat 39]
    ∧ goQuoteByte 10 = String.mk [Char.ofNat 39, Char.ofNat 92, Char.ofNat 110, Char.ofNat 39]
    ∧ goQuoteByte 39 = String.mk [Char.ofNat 39, Char.ofNat 92, Char.ofNat 39, Char.ofNat 39]
    ∧ goQuoteByte 92 = String.mk [Char.ofNat 39, Char.ofNat 92, Char.ofNat 92, Char.ofNat 39]
    ∧ goQuoteByte 160 = String.mk [Char.ofNat 39, Char.ofNat 92, Char.ofNat 117,
        Char.ofNat 48, Char.ofNat 48, Char.ofNat 97, Char.ofNat 48, Char.ofNat 39] := by
  refine ⟨?_, ?_, ?_, by decide, by decide, by decide, by decide, by decide, by decide⟩
  · intro b
    by_cases hb : b = 4 <;> simp [readIter, readerWrites, hb]
  · intro b msg
    by_cases hb : b = 4 <;> simp [readIter, readerWrites, hb]
  · intro b
    by_cases hb : b = 4 <;> simp [readIter, readerWrites, hb]

/-- C1 counterexample: a space received while Running does not record
the elapsed value now minus start of the keypress instant. With start
0 and last tick elapsed d equal to 10, a space at instant 15 followed
by a space at instant 1000 resumes with start 990, so the elapsed
value just after resume is 10, the last tick value, and not 15, the
value now minus start held at the pause keypress. -/
theorem pause_records_last_tick_counterexample :
    step .STOPWATCH (2 ^ 63 - 1) 15 ⟨0, false, 10⟩ (.byte 32)
      = .cont ⟨0, true, 10⟩ []
    ∧ step .STOPWATCH (2 ^ 63 - 1) 1000 ⟨0, true, 10⟩ (.byte 32)
      = .cont ⟨990, false, 10⟩ []
    ∧ ((1000 : Int) - 990 ≠ 15 - 0) :=
  ⟨by decide, by decide, by decide⟩

/-- C1 amended: a space while Running only sets the pause flag,
freezing the elapsed value at the loop variable d, the elapsed of the
last processed tick, which is exactly the last rendered value; a space
while Paused sets start to now minus d and resumes, so the elapsed
value immediately after resume equals the last rendered value before
the pause, preserved exactly with no drift from the pause interval. -/
theorem pause_resume_preserves_last_tick_elapsed (duration np nr : Int)
    (s : LoopState) (h : s.pause = false) :
    step .STOPWATCH duration np s (.byte 32) = .cont { s with pause := true } []
    ∧ step .STOPWATCH duration nr { s with pause := true } (.byte 32)
        = .cont { s with pause := false, start := nr - s.d } []
    ∧ nr - (nr - s.d) = s.d
    ∧ (∀ t : Int, ¬ (t - s.start > duration) →
        step .STOPWATCH duration np s (.tick t)
          = .cont { s with d := t - s.start }
              [.frame .STOPWATCH duration (t - s.start)]) := by
  refine ⟨by simp [step, h], by simp [step], by omega, ?_⟩
  intro t ht
  simp [step, h, ht]

/-- Witness for the amended C1 at concrete instants. -/
theorem pause_resume_preserves_last_tick_elapsed_witness :
    step .STOPWATCH (2 ^ 63 - 1) 1000 ⟨0, true, 10⟩ (.byte 32)
      = .cont ⟨990, false, 10⟩ [] :=
  (pause_resume_preserves_last_tick_elapsed (2 ^ 63 - 1) 15 1000 ⟨0, false, 10⟩ rfl).2.1

/-- C4: a tick at t while Running with elapsed strictly above the
target makes the loop print the bell once, render the final frame with
the target in place of the elapsed value and return 0; for Countdown
the final frame shows zero remaining; a tick with elapsed equal to the
target renders normally and does not terminate. -/
theorem tick_overrun_final_frame (mode : Mode) (duration now t : Int)
    (s : LoopState) (hp : s.pause = false) :
    (t - s.start > duration →
      step mode duration now s (.tick t)
        = .done 0 [.bell, .frame mode duration duration, .newline])
    ∧ (t - s.start = duration →
      step mode duration now s (.tick t)
        = .cont { s with d := duration } [.frame mode duration duration])
    ∧ printElapsed .COUNTDOWN duration duration = "\x0dTime Remaining: [00:00:00.00]" := by
  refine ⟨?_, ?_, ?_⟩
  · intro hgt
    simp [step, hp, hgt]
  · intro heq
    have hng : ¬ (t - s.start > duration) := by omega
    simp [step, hp, hng, heq]
  · have h0 : duration - duration = (0 : Int) := by omega
    simp only [printElapsed, h0]
    rfl

/-- Witness for C4: countdown target 500 and a tick giving elapsed 501. -/
theorem tick_overrun_final_frame_witness :
    step .COUNTDOWN 500 0 ⟨0, false, 0⟩ (.tick 501)
      = .done 0 [.bell, .frame .COUNTDOWN 500 500, .newline] :=
  (tick_overrun_final_frame .COUNTDOWN 500 0 501 ⟨0, false, 0⟩ rfl).1 (by decide)

/-- C6: a byte event carrying q or Q returns 0 in any state and mode,
writing only the trailing newline, and a simultaneously pending tick
is never processed. -/
theorem quit_byte_terminates (mode : Mode) (duration now t n₂ : Int)
    (s : LoopState) (b : Nat) (hb : b = 81 ∨ b = 113) :
    step mode duration now s (.byte b) = .done 0 [.newline]
    ∧ runEvents mode duration s [(now, .byte b), (n₂, .tick t)]
        = .done 0 [.newline] [(n₂, .tick t)] := by
  have h1 : step mode duration now s (.byte b) = .done 0 [.newline] := by
    rcases hb with h | h <;> subst h <;> simp [step]
  exact ⟨h1, by simp [runEvents, h1]⟩

/-- Witness for C6: lowercase q while paused in Stopwatch mode. -/
theorem quit_byte_terminates_witness :
    step .STOPWATCH 100 5 ⟨0, true, 3⟩ (.byte 113) = .done 0 [.newline] :=
  (quit_byte_terminates .STOPWATCH 100 5 7 9 ⟨0, true, 3⟩ 113 (Or.inr rfl)).1

/-- C8: in Stopwatch mode runTimer replaces the target by the maximum
int64 value, every elapsed value representable as an int64 fails the
strict overrun comparison, and a tick then takes the ordinary render
branch, never the bell and terminate branch. -/
theorem stopwatch_overrun_unreachable (d₀ now t : Int) (s : LoopState)
    (hp : s.pause = false) (h : t - s.start ≤ 2 ^ 63 - 1) :
    runTimerDuration .STOPWATCH d₀ = 2 ^ 63 - 1
    ∧ ¬ (t - s.start > runTimerDuration .STOPWATCH d₀)
    ∧ step .STOPWATCH (runTimerDuration .STOPWATCH d₀) now s (.tick t)
        = .cont { s with d := t - s.start }
            [.frame .STOPWATCH (2 ^ 63 - 1) (t - s.start)] := by
  have h0 : runTimerDuration .STOPWATCH d₀ = 2 ^ 63 - 1 := by
    simp [runTimerDuration]
  have hlit : (2 : Int) ^ 63 - 1 = 9223372036854775807 := by norm_num
  rw [hlit] at h
  refine ⟨h0, by rw [h0, hlit]; omega, ?_⟩
  rw [h0]
  simp [step, hp]
  omega

/-- Witness for C8 at elapsed 50. -/
theorem stopwatch_overrun_unreachable_witness :
    step .STOPWATCH (runTimerDuration .STOPWATCH 0) 0 ⟨0, false, 0⟩ (.tick 50)
      = .cont ⟨0, false, 50⟩ [.frame .STOPWATCH (2 ^ 63 - 1) 50] :=
  (stopwatch_overrun_unreachable 0 0 50 ⟨0, false, 0⟩ rfl (by decide)).2.2

/-- C9: in Timer and Countdown mode two successive in range ticks at
t₁ and t₂ with t₁ at most t₂ render elapsed values t₁ minus start and
t₂ minus start, the first at most the second; byte events in these
modes never change start, so the start shared by successive ticks is
the same. -/
theorem tick_elapsed_monotone (mode : Mode) (duration now t₁ t₂ : Int)
    (s : LoopState) (hm : mode = .TIMER ∨ mode = .COUNTDOWN)
    (hp : s.pause = false)
    (h₁ : ¬ (t₁ - s.start > duration)) (h₁₂ : t₁ ≤ t₂) :
    step mode duration now s (.tick t₁)
      = .cont { s with d := t₁ - s.start } [.frame mode duration (t₁ - s.start)]
    ∧ (¬ (t₂ - s.start > duration) →
        step mode duration now { s with d := t₁ - s.start } (.tick t₂)
          = .cont { s with d := t₂ - s.start } [.frame mode duration (t₂ - s.start)]
        ∧ t₁ - s.start ≤ t₂ - s.start)
    ∧ (t₂ - s.start > duration →
        step mode duration now { s with d := t₁ - s.start } (.tick t₂)
          = .done 0 [.bell, .frame mode duration duration, .newline]
        ∧ t₁ - s.start ≤ duration)
    ∧ (∀ (b : Nat) (s₂ : LoopState) (out : List Out),
        step mode duration now s (.byte b) = .cont s₂ out → s₂.start = s.start) := by
  refine ⟨by simp [step, hp, h₁], ?_, ?_, ?_⟩
  · intro h₂
    exact ⟨by simp [step, hp, h₂], by omega⟩
  · intro h₂
    exact ⟨by simp [step, hp, h₂], by omega⟩
  · intro b s₂ out hstep
    by_cases hb : b = 81 ∨ b = 113
    · simp [step, hb] at hstep
    · rcases hm with h | h <;> subst h <;> simp [step, hb] at hstep <;>
        rw [← hstep.1]

/-- Witness for C9: Timer mode, ticks at 10 and 20. -/
theorem tick_elapsed_monotone_witness :
    step .TIMER 100 0 ⟨0, false, 0⟩ (.tick 10)
      = .cont ⟨0, false, 10⟩ [.frame .TIMER 100 10] :=
  (tick_elapsed_monotone .TIMER 100 0 10 20 ⟨0, false, 0⟩ (Or.inl rfl) rfl
    (by decide) (by decide)).1

/-- C10: in Countdown mode every frame the loop renders carries a non
negative remaining value: ordinary frames only arise from ticks whose
elapsed is at most the target, and the final overrun frame uses the
target itself, rendering zero remaining; the rendered string of a
frame is the remaining value formatted. -/
theorem countdown_remaining_nonneg (duration now : Int) (s : LoopState)
    (ev : Event) :
    (∀ total d : Int,
      Out.frame .COUNTDOWN total d ∈ outputsOf (step .COUNTDOWN duration now s ev)
      → 0 ≤ total - d)
    ∧ (∀ total d : Int,
        printElapsed .COUNTDOWN total d
          = "\x0dTime Remaining: " ++ printDuration (total - d)) := by
  refine ⟨?_, fun _ _ => rfl⟩
  intro total d hmem
  match ev with
  | .tick t =>
    by_cases hp : s.pause
    · simp [step, outputsOf, hp] at hmem
    · by_cases hgt : t - s.start > duration
      · simp [step, outputsOf, hp, hgt] at hmem
        omega
      · simp [step, outputsOf, hp, hgt] at hmem
        omega
  | .byte b =>
    by_cases hb : b = 81 ∨ b = 113
    · simp [step, outputsOf, hb] at hmem
    · by_cases hsp : b = 32
      · simp [step, outputsOf, hb, hsp] at hmem
      · simp [step, outputsOf, hb, hsp] at hmem
  | .term ret => simp [step, outputsOf] at hmem

/-- Witness for C10: the final overrun frame of a 500ns countdown. -/
theorem countdown_remaining_nonneg_witness :
    Out.frame .COUNTDOWN 500 500 ∈ outputsOf (step .COUNTDOWN 500 0 ⟨0, false, 0⟩ (.tick 501))
    ∧ (0 : Int) ≤ 500 - 500 :=
  ⟨by decide,
    (countdown_remaining_nonneg 500 0 ⟨0, false, 0⟩ (.tick 501)).1 500 500 (by decide)⟩

end Gutimer
